import Mathlib

/-!
Shallow embedding of `src/core/loader/ncch.cpp` (namespace `Loader`,
class `AppLoader_NCCH`) from the Lime-3DS emulator, together with proofs
about the load pipeline: GBA-virtual-console trailer rejection, process
image layout, bss padding, base/update container overlay resolution,
RomFS read fallback, region-lockout parsing and title extraction.

Machine integers are modelled as `Nat` with explicit `% 2^32` where the
source performs 32-bit arithmetic.  Byte buffers (`std::vector<u8>`) are
`List Nat`.  Collaborator calls (container loads, section reads, patch
application, telemetry, network broadcast) are modelled as environment
fields recording their outcomes, and side effects as counters.
-/

namespace Loader

/-- Result codes of `Loader::ResultStatus` used by `ncch.cpp`.
`ErrorOther n` stands for any further pass-through error code. -/
inductive ResultStatus where
  | Success
  | Error
  | ErrorNotLoaded
  | ErrorNotUsed
  | ErrorAlreadyLoaded
  | ErrorInvalidFormat
  | ErrorGbaTitle
  | ErrorOther (n : Nat)
deriving DecidableEq

/-- Which of the two NCCH containers a reference designates
(`base_ncch` / `update_ncch`). -/
inductive ContainerSel where
  | base
  | update
deriving DecidableEq

/-- `MakeMagic(a, b, c, d)`: bytes packed little-endian into a 32-bit
magic value (from `common_funcs.h`, used at `ncch.cpp:195`). -/
def MakeMagic (a b c d : Nat) : Nat :=
  a ||| (b <<< 8) ||| (c <<< 16) ||| (d <<< 24)

/-- Read a 32-bit little-endian value from byte buffer `l` at offset `i`,
as the `reinterpret_cast<const u32*>` reads in `ncch.cpp:194` do on the
little-endian hosts the emulator targets.  Out-of-range bytes read as 0. -/
def read32LE (l : List Nat) (i : Nat) : Nat :=
  l.getD i 0 + 2 ^ 8 * l.getD (i + 1) 0 + 2 ^ 16 * l.getD (i + 2) 0 +
    2 ^ 24 * l.getD (i + 3) 0

/-- `AppLoader_NCCH::IsGbaVirtualConsole` (`ncch.cpp:193-197`): the code
section is a GBA Virtual Console payload when it has at least 0x10 bytes
and its final 0x10 bytes start with the magic `.CAA` followed by the
32-bit value 1. -/
def IsGbaVirtualConsole (code : List Nat) : Bool :=
  decide (0x10 ≤ code.length) &&
    decide (read32LE code (code.length - 0x10) = MakeMagic 46 67 65 65) &&
    decide (read32LE code (code.length - 0xC) = 1)

/-- `Memory::CITRA_PAGE_SIZE`. -/
def CITRA_PAGE_SIZE : Nat := 0x1000

/-- `ncch.cpp:110`: `u32 bss_page_size = (bss_size + 0xFFF) & ~0xFFF;`
in 32-bit unsigned arithmetic. -/
def bssPageSize (bss_size : Nat) : Nat :=
  ((bss_size + 0xFFF) % 2 ^ 32) &&& 0xFFFFF000

/-- The spec's wording for the bss padding: "raw bss size rounded up to
the next multiple of 4096 (the smallest multiple of 4096 greater than or
equal to it)". -/
def specBssRoundUp (n : Nat) : Nat :=
  (n + 4095) / 4096 * 4096

/-- `std::vector<u8>::resize(n, 0)`: truncate or extend with zero bytes. -/
def resizeVec (v : List Nat) (n : Nat) : List Nat :=
  if n ≤ v.length then v.take n else v ++ List.replicate (n - v.length) 0

theorem land_mask_4096 (x : Nat) :
    x &&& 0xFFFFF000 = x / 4096 % 2 ^ 20 * 4096 := by
  have hR : ∀ i, (x / 4096 % 2 ^ 20 * 4096).testBit i
      = (decide (12 ≤ i) && decide (i - 12 < 20) && x.testBit i) := by
    intro i
    have h1 : x / 4096 % 2 ^ 20 * 4096 = (x >>> 12 % 2 ^ 20) <<< 12 := by
      rw [Nat.shiftLeft_eq, Nat.shiftRight_eq_div_pow]
    rw [h1, Nat.testBit_shiftLeft, Nat.testBit_mod_two_pow,
      Nat.testBit_shiftRight]
    by_cases h12 : 12 ≤ i
    · have hii : 12 + (i - 12) = i := by omega
      by_cases ht : x.testBit i <;>
        simp [h12, hii, ht]
    · simp [h12]
  have hL : ∀ i, (x &&& 0xFFFFF000).testBit i
      = (decide (12 ≤ i) && decide (i - 12 < 20) && x.testBit i) := by
    intro i
    have hm : (0xFFFFF000 : Nat) = (2 ^ 20 - 1) <<< 12 := by
      rw [Nat.shiftLeft_eq]
      norm_num
    rw [Nat.testBit_land, hm, Nat.testBit_shiftLeft,
      Nat.testBit_two_pow_sub_one]
    by_cases h12 : 12 ≤ i
    · by_cases ht : x.testBit i <;> simp [h12, ht]
    · simp [h12]
  apply Nat.eq_of_testBit_eq
  intro i
  rw [hL, hR]

theorem bssPageSize_eq_roundUp_mod (bss : Nat) :
    bssPageSize bss = specBssRoundUp bss % 2 ^ 32 := by
  unfold bssPageSize specBssRoundUp
  rw [land_mask_4096]
  have e1 : (bss + 4095) % 2 ^ 32 / 4096 = (bss + 4095) / 4096 % 2 ^ 20 := by
    have e : (2 ^ 32 : Nat) = 4096 * 2 ^ 20 := by norm_num
    rw [e, Nat.mod_mul_right_div_self]
  have e2 : (bss + 4095) / 4096 * 4096 % 2 ^ 32
      = (bss + 4095) / 4096 % 2 ^ 20 * 4096 := by
    have e : (2 ^ 32 : Nat) = 2 ^ 20 * 4096 := by norm_num
    rw [e, Nat.mul_mod_mul_right]
  rw [e1, e2, Nat.mod_mod_of_dvd _ dvd_rfl]

theorem bssPageSize_eq_roundUp (bss : Nat) (h : bss ≤ 0xFFFFF000) :
    bssPageSize bss = specBssRoundUp bss := by
  rw [bssPageSize_eq_roundUp_mod]
  apply Nat.mod_eq_of_lt
  unfold specBssRoundUp
  have h1 : (bss + 4095) / 4096 ≤ 0xFFFFFFFF / 4096 :=
    Nat.div_le_div_right (by omega)
  have h3 : (bss + 4095) / 4096 * 4096 ≤ 1048575 * 4096 :=
    Nat.mul_le_mul_right _ (by omega)
  omega


/-- The three per-segment fields of `exheader_header.codeset_info.{text,ro,data}`
used by `LoadExec`: target address and maximal page count. -/
structure CodeSegmentInfo where
  address : Nat
  num_max_pages : Nat
deriving DecidableEq

/-- The part of `exheader_header.codeset_info` that `LoadExec` reads for
the image layout. -/
structure CodeSetInfo where
  text : CodeSegmentInfo
  ro : CodeSegmentInfo
  data : CodeSegmentInfo
  bss_size : Nat
deriving DecidableEq

/-- One `Kernel::CodeSet` segment record: offset into the backing buffer,
target address, and size. -/
structure SegmentRec where
  offset : Nat
  addr : Nat
  size : Nat
deriving DecidableEq

/-- The `Kernel::CodeSet` data produced by `LoadExec`: the three segment
records, the entrypoint, and the backing byte buffer. -/
structure CodeSetRec where
  code_seg : SegmentRec
  ro_seg : SegmentRec
  data_seg : SegmentRec
  entrypoint : Nat
  memory : List Nat
deriving DecidableEq

/-- The `AppLoader_NCCH` members mutated by `Load`: the `is_loaded` flag
(from `AppLoader`) and the `overlay_ncch` reference.  A freshly
constructed loader has `is_loaded = false` and `overlay_ncch` pointing at
`base_ncch`. -/
structure LoaderState where
  is_loaded : Bool
  overlay_ncch : ContainerSel
deriving DecidableEq

/-- Counters for the observable side effects of `Load`: telemetry fields
recorded (`TelemetrySession().AddField`), game-info broadcasts
(`SendGameInfo`), and processes created (`CreateProcess`). -/
structure Effects where
  telemetry : Nat
  broadcasts : Nat
  processes : Nat
deriving DecidableEq

/-- Outcomes of the collaborator calls made during `Load` and `LoadExec`:
results of `base_ncch.Load()` and `update_ncch.Load()`, of
`ReadCode`/`ReadProgramId`, the exheader visible through each container,
the result of `ApplyCodePatch`, and whether a network room is active. -/
structure Env where
  baseLoad : ResultStatus
  updateLoad : ResultStatus
  readCode : ContainerSel → ResultStatus × List Nat
  readProgramId : ResultStatus
  exheader : ContainerSel → CodeSetInfo
  applyCodePatch : ContainerSel → ResultStatus
  networkActive : Bool

/-- The image layout computed by `LoadExec` (`ncch.cpp:97-127`): code
segment at offset 0, ro segment after it, bss-padded buffer, data segment
after ro with the padded bss size added, entrypoint at the code segment's
target address. -/
def LoadExecLayout (ci : CodeSetInfo) (code : List Nat) : CodeSetRec :=
  let codeSeg : SegmentRec :=
    ⟨0, ci.text.address, ci.text.num_max_pages * CITRA_PAGE_SIZE⟩
  let roSeg : SegmentRec :=
    ⟨codeSeg.offset + codeSeg.size, ci.ro.address,
      ci.ro.num_max_pages * CITRA_PAGE_SIZE⟩
  let bss := bssPageSize ci.bss_size
  let code2 := resizeVec code (code.length + bss)
  let dataSeg : SegmentRec :=
    ⟨roSeg.offset + roSeg.size, ci.data.address,
      ci.data.num_max_pages * CITRA_PAGE_SIZE + bss⟩
  ⟨codeSeg, roSeg, dataSeg, codeSeg.addr, code2⟩

/-- `AppLoader_NCCH::LoadExec` (`ncch.cpp:76-161`): requires the loaded
flag; reads the code section and program id (any failure yields the
generic `Error`); rejects GBA Virtual Console payloads; lays out the
code set; applies the code patch, propagating any result other than
`Success`/`ErrorNotUsed`; then creates and runs the process. -/
def LoadExec (env : Env) (st : LoaderState) (eff : Effects) :
    ResultStatus × Effects × Option CodeSetRec :=
  if st.is_loaded = false then (ResultStatus.ErrorNotLoaded, eff, none)
  else
    if (env.readCode st.overlay_ncch).1 = ResultStatus.Success ∧
        env.readProgramId = ResultStatus.Success then
      if IsGbaVirtualConsole (env.readCode st.overlay_ncch).2 then
        (ResultStatus.ErrorGbaTitle, eff, none)
      else
        if env.applyCodePatch st.overlay_ncch ≠ ResultStatus.Success ∧
            env.applyCodePatch st.overlay_ncch ≠ ResultStatus.ErrorNotUsed then
          (env.applyCodePatch st.overlay_ncch, eff, none)
        else
          (ResultStatus.Success,
            ⟨eff.telemetry, eff.broadcasts, eff.processes + 1⟩,
            some (LoadExecLayout (env.exheader st.overlay_ncch)
              (env.readCode st.overlay_ncch).2))
    else (ResultStatus.Error, eff, none)

/-- The loader state after `ncch.cpp:214-232`: the overlay reference is
switched to the update container exactly when the update load succeeded,
and the loaded flag is set. -/
def stAfter (env : Env) (st : LoaderState) : LoaderState :=
  ⟨true,
    if env.updateLoad = ResultStatus.Success then ContainerSel.update
    else st.overlay_ncch⟩

/-- The side-effect counters after the telemetry record (`ncch.cpp:222`)
and the conditional game-info broadcast (`ncch.cpp:225-230`). -/
def effAfter (env : Env) (eff : Effects) : Effects :=
  ⟨eff.telemetry + 1,
    eff.broadcasts + (if env.networkActive then 1 else 0), eff.processes⟩

/-- `AppLoader_NCCH::Load` (`ncch.cpp:199-243`): reject when already
loaded; load the base container, aborting with its error on failure;
load the update container, switching the overlay to it only on success;
record the telemetry field; broadcast game info when a room is active;
set the loaded flag; then run `LoadExec`, propagating its error. -/
def Load (env : Env) (st : LoaderState) (eff : Effects) :
    ResultStatus × LoaderState × Effects × Option CodeSetRec :=
  if st.is_loaded then (ResultStatus.ErrorAlreadyLoaded, st, eff, none)
  else if env.baseLoad ≠ ResultStatus.Success then (env.baseLoad, st, eff, none)
  else
    match LoadExec env (stAfter env st) (effAfter env eff) with
    | (r, eff2, img) =>
      if r ≠ ResultStatus.Success then (r, stAfter env st, eff2, none)
      else (ResultStatus.Success, stAfter env st, eff2, img)

/-- `AppLoader_NCCH::ReadUpdateRomFS` (`ncch.cpp:290-297`): try the
update container's RomFS; on any non-success result return the base
container's RomFS read wholesale; on success return `Success` with the
update's reader (readers are abstracted as `Nat` identifiers). -/
def ReadUpdateRomFS (updateRead baseRead : ResultStatus × Nat) :
    ResultStatus × Nat :=
  if updateRead.1 ≠ ResultStatus.Success then baseRead
  else (ResultStatus.Success, updateRead.2)

/-- The loop of `ParseRegionLockoutInfo` (`ncch.cpp:178-183`): for each
of `n` regions starting at `region`, append the region when the low bit
of the mask is set, then shift the mask right by one. -/
def regionLoop : Nat → Nat → Nat → List Nat
  | 0, _, _ => []
  | n + 1, region, mask =>
      (if mask &&& 1 = 1 then [region] else []) ++
        regionLoop n (region + 1) (mask >>> 1)

/-- The region list derived from a region-lockout mask: the loop run for
`REGION_COUNT = 7` regions starting at region 0. -/
def lockoutRegions (region_lockout : Nat) : List Nat :=
  regionLoop 7 0 region_lockout

/-- `AppLoader_NCCH::ParseRegionLockoutInfo` (`ncch.cpp:163-191`),
returning the list of `SetPreferredRegionCodes` calls made.
`autoSelect` models `Settings::values.region_value == REGION_VALUE_AUTO_SELECT`,
`smdhSize` models `sizeof(SMDH)` and `regionLockoutOf` the
`smdh.region_lockout` field read after `memcpy` (the `SMDH` layout lives
in `smdh.h`, outside `src/`); `systemTitleRegion` models
`Core::GetSystemTitleRegion(program_id)`. -/
def ParseRegionLockoutInfo (autoSelect : Bool) (smdhSize : Nat)
    (iconResult : ResultStatus) (iconBuf : List Nat)
    (regionLockoutOf : List Nat → Nat) (systemTitleRegion : Option Nat) :
    List (List Nat) :=
  if autoSelect = false then []
  else if iconResult = ResultStatus.Success ∧ smdhSize ≤ iconBuf.length then
    [lockoutRegions (regionLockoutOf iconBuf)]
  else
    match systemTitleRegion with
    | some r => [[r]]
    | none => []

/-- Modelled from the spec: `Loader::IsValidSMDH` is defined in
`smdh.cpp`, which is not under `src/`; per the spec the icon metadata
fails validation when "absent or smaller than the fixed icon layout", so
validity is the buffer holding at least the fixed layout size. -/
def IsValidSMDH (smdhSize : Nat) (data : List Nat) : Bool :=
  decide (smdhSize ≤ data.length)

/-- `ncch.cpp:323-324`: truncate a UTF-16 short title at the first null
code unit (`std::find` of `u'\0'` and taking the prefix before it). -/
def truncAtNull (l : List Nat) : List Nat :=
  l.takeWhile (fun c => c != 0)

/-- `AppLoader_NCCH::ReadTitle` (`ncch.cpp:311-327`): fail with
`ErrorInvalidFormat` when the icon buffer is not a valid SMDH, otherwise
return the English short title truncated at the first null code unit.
`shortTitle` models `smdh.GetShortTitle(TitleLanguage::English)` as a
list of UTF-16 code units (the `SMDH` layout lives outside `src/`). -/
def ReadTitle (smdhSize : Nat) (iconBuf : List Nat)
    (shortTitle : List Nat → List Nat) : ResultStatus × Option (List Nat) :=
  if IsValidSMDH smdhSize iconBuf = false then
    (ResultStatus.ErrorInvalidFormat, none)
  else
    (ResultStatus.Success, some (truncAtNull (shortTitle iconBuf)))

theorem resizeVec_grow (v : List Nat) (b : Nat) :
    resizeVec v (v.length + b) = v ++ List.replicate b 0 := by
  unfold resizeVec
  by_cases hb : b = 0
  · subst hb
    simp
  · have hgt : ¬(v.length + b ≤ v.length) := by omega
    rw [if_neg hgt]
    have e : v.length + b - v.length = b := by omega
    rw [e]

theorem takeWhile_prefix_eq (p : Nat → Bool) (a b : List Nat) (x : Nat)
    (ha : ∀ y ∈ a, p y = true) (hx : p x = false) :
    (a ++ x :: b).takeWhile p = a := by
  induction a with
  | nil => simp [List.takeWhile_cons, hx]
  | cons h t ih =>
    have hh : p h = true := ha h (by simp)
    simp only [List.cons_append, List.takeWhile_cons, hh, if_true]
    rw [ih (fun y hy => ha y (by simp [hy]))]

theorem regionLoop_eq (n : Nat) :
    ∀ r m, regionLoop n r m
      = ((List.range n).filter (fun i => m.testBit i)).map (fun i => r + i) := by
  induction n with
  | zero =>
    intro r m
    rfl
  | succ k ih =>
    intro r m
    have hhead : (m &&& 1 = 1) ↔ (m.testBit 0 = true) := by
      rw [Nat.and_one_is_mod, Nat.testBit_zero, decide_eq_true_eq]
    have hshift : m >>> 1 = m / 2 := by
      rw [Nat.shiftRight_succ, Nat.shiftRight_zero]
    have htail : (fun i => m.testBit i) ∘ Nat.succ
        = fun i => (m >>> 1).testBit i := by
      funext i
      simp only [Function.comp_apply]
      rw [Nat.testBit_succ, hshift]
    have htaileq :
        List.map (fun i => r + i)
            (List.filter (fun i => m.testBit i)
              (List.map Nat.succ (List.range k)))
          = List.map (fun i => r + 1 + i)
              (List.filter (fun i => (m >>> 1).testBit i) (List.range k)) := by
      rw [List.filter_map, htail, List.map_map]
      apply List.map_congr_left
      intro a _
      simp only [Function.comp_apply]
      omega
    rw [regionLoop, ih (r + 1) (m >>> 1), List.range_succ_eq_map,
      List.filter_cons]
    by_cases h0 : m.testBit 0 = true
    · rw [if_pos (hhead.mpr h0), if_pos h0, List.map_cons, htaileq]
      simp
    · rw [if_neg (fun hc => h0 (hhead.mp hc)), if_neg h0, htaileq]
      simp

theorem lockoutRegions_eq (m : Nat) :
    lockoutRegions m = (List.range 7).filter (fun i => m.testBit i) := by
  rw [lockoutRegions, regionLoop_eq]
  have e : (fun i => 0 + i) = fun i : Nat => i := by
    funext i
    omega
  rw [e]
  exact List.map_id _

/-- C2: for every header, `LoadExec` lays the process image out with the
code segment at buffer offset 0 and size page-count × 4096, the ro
segment's offset equal to the code segment's size, the data segment's
offset equal to the ro offset plus the ro size, the data segment's size
equal to its page count × 4096 plus the padded bss size, and the entry
address equal to the code segment's target address; with page counts
1/1/1 and raw bss size 1 the data-segment size is 8192. -/
theorem C2_image_layout (ci : CodeSetInfo) (code : List Nat) :
    (LoadExecLayout ci code).code_seg.offset = 0 ∧
    (LoadExecLayout ci code).code_seg.size = ci.text.num_max_pages * 4096 ∧
    (LoadExecLayout ci code).ro_seg.offset
      = (LoadExecLayout ci code).code_seg.size ∧
    (LoadExecLayout ci code).data_seg.offset
      = (LoadExecLayout ci code).ro_seg.offset
        + (LoadExecLayout ci code).ro_seg.size ∧
    (LoadExecLayout ci code).data_seg.size
      = ci.data.num_max_pages * 4096 + bssPageSize ci.bss_size ∧
    (LoadExecLayout ci code).entrypoint = (LoadExecLayout ci code).code_seg.addr ∧
    (LoadExecLayout ⟨⟨0, 1⟩, ⟨0, 1⟩, ⟨0, 1⟩, 1⟩ []).data_seg.size = 8192 := by
  simp only [LoadExecLayout, CITRA_PAGE_SIZE]
  refine ⟨?_, ?_, ?_, ?_, ?_, ?_, ?_⟩ <;> first | rfl | omega | decide

/-- C9 (amended): for every header, the three segments are laid out
back-to-back and non-overlapping in the order code, ro, data(+bss) —
each segment ends exactly where the next begins — and the offsets are
strictly increasing whenever the code and ro page counts are nonzero
(a header with a zero page count yields segments of size 0 with tied
offsets, so strictness does not hold unconditionally). -/
theorem C9_segments_ordered (ci : CodeSetInfo) (code : List Nat) :
    (LoadExecLayout ci code).code_seg.offset
        + (LoadExecLayout ci code).code_seg.size
      = (LoadExecLayout ci code).ro_seg.offset ∧
    (LoadExecLayout ci code).ro_seg.offset
        + (LoadExecLayout ci code).ro_seg.size
      = (LoadExecLayout ci code).data_seg.offset ∧
    (0 < ci.text.num_max_pages → 0 < ci.ro.num_max_pages →
      (LoadExecLayout ci code).code_seg.offset
          < (LoadExecLayout ci code).ro_seg.offset ∧
      (LoadExecLayout ci code).ro_seg.offset
          < (LoadExecLayout ci code).data_seg.offset) := by
  simp only [LoadExecLayout, CITRA_PAGE_SIZE]
  refine ⟨by trivial, by trivial, fun h1 h2 => ⟨by omega, by omega⟩⟩

/-- C9 (counterexample): the claim's "strictly increasing offsets for
every header accepted by LoadExec" fails at a header whose page counts
are all zero: `LoadExec` accepts it (returns `Success`), yet the code
and ro segments share offset 0. -/
theorem C9_counterexample :
    LoadExec
        ⟨ResultStatus.Success, ResultStatus.Error,
          fun _ => (ResultStatus.Success, []), ResultStatus.Success,
          fun _ => ⟨⟨0, 0⟩, ⟨0, 0⟩, ⟨0, 0⟩, 0⟩,
          fun _ => ResultStatus.ErrorNotUsed, false⟩
        ⟨true, ContainerSel.base⟩ ⟨0, 0, 0⟩
      = (ResultStatus.Success, ⟨0, 0, 1⟩,
          some (LoadExecLayout ⟨⟨0, 0⟩, ⟨0, 0⟩, ⟨0, 0⟩, 0⟩ [])) ∧
    ¬((LoadExecLayout ⟨⟨0, 0⟩, ⟨0, 0⟩, ⟨0, 0⟩, 0⟩ []).code_seg.offset
        < (LoadExecLayout ⟨⟨0, 0⟩, ⟨0, 0⟩, ⟨0, 0⟩, 0⟩ []).ro_seg.offset) := by
  constructor
  · rfl
  · decide

/-- C9 (witness): with page counts 1/1/1 the strictness hypotheses of
`C9_segments_ordered` are satisfiable and the offsets strictly
increase. -/
theorem C9_witness :
    (LoadExecLayout ⟨⟨0, 1⟩, ⟨0, 1⟩, ⟨0, 1⟩, 0⟩ []).code_seg.offset
        < (LoadExecLayout ⟨⟨0, 1⟩, ⟨0, 1⟩, ⟨0, 1⟩, 0⟩ []).ro_seg.offset ∧
    (LoadExecLayout ⟨⟨0, 1⟩, ⟨0, 1⟩, ⟨0, 1⟩, 0⟩ []).ro_seg.offset
        < (LoadExecLayout ⟨⟨0, 1⟩, ⟨0, 1⟩, ⟨0, 1⟩, 0⟩ []).data_seg.offset :=
  (C9_segments_ordered ⟨⟨0, 1⟩, ⟨0, 1⟩, ⟨0, 1⟩, 0⟩ []).2.2 (by decide) (by decide)

/-- C8 (amended): the padded bss size computed at `ncch.cpp:110` equals
the raw bss size rounded up to the next multiple of 4096 reduced modulo
2^32 — so it equals the exact round-up whenever the raw size is at most
0xFFFFF000 (for larger 32-bit values the round-up overflows and the
computed value wraps); and the code buffer grows by exactly that many
zero bytes appended at the end, leaving the existing bytes unchanged. -/
theorem C8_bss_padding (bss : Nat) (code : List Nat) :
    bssPageSize bss = specBssRoundUp bss % 2 ^ 32 ∧
    (bss ≤ 0xFFFFF000 → bssPageSize bss = specBssRoundUp bss) ∧
    resizeVec code (code.length + bssPageSize bss)
      = code ++ List.replicate (bssPageSize bss) 0 ∧
    (resizeVec code (code.length + bssPageSize bss)).length
      = code.length + bssPageSize bss ∧
    List.take code.length (resizeVec code (code.length + bssPageSize bss))
      = code :=
  ⟨bssPageSize_eq_roundUp_mod bss, fun h => bssPageSize_eq_roundUp bss h,
    resizeVec_grow code _,
    by rw [resizeVec_grow]; simp,
    by rw [resizeVec_grow]; exact List.take_left _ _⟩

/-- C8 (counterexample): the claim fails for the 32-bit raw bss size
0xFFFFF001 = 4294963201: rounding up to the next multiple of 4096 gives
2^32, which does not fit in 32 bits, and the computed padded size wraps
to 0. -/
theorem C8_counterexample :
    bssPageSize 4294963201 = 0 ∧
    specBssRoundUp 4294963201 = 4294967296 ∧
    bssPageSize 4294963201 ≠ specBssRoundUp 4294963201 := by
  refine ⟨by decide, by decide, by decide⟩

/-- C8 (witness): at raw bss size 5 the padded size is the exact
round-up 4096 and the buffer grows by 4096 zero bytes. -/
theorem C8_witness :
    bssPageSize 5 = specBssRoundUp 5 ∧
    resizeVec [1, 2, 3] (3 + bssPageSize 5)
      = [1, 2, 3] ++ List.replicate (bssPageSize 5) 0 :=
  ⟨(C8_bss_padding 5 [1, 2, 3]).2.1 (by norm_num),
    (C8_bss_padding 5 [1, 2, 3]).2.2.1⟩

theorem Load_notLoaded_eval (env : Env) (st : LoaderState) (eff : Effects)
    (hstl : st.is_loaded = false) (hb : env.baseLoad = ResultStatus.Success)
    (r : ResultStatus) (eff2 : Effects) (img : Option CodeSetRec)
    (hle : LoadExec env (stAfter env st) (effAfter env eff) = (r, eff2, img)) :
    Load env st eff
      = if r ≠ ResultStatus.Success then (r, stAfter env st, eff2, none)
        else (ResultStatus.Success, stAfter env st, eff2, img) := by
  unfold Load
  rw [hstl, hle, hb]
  simp

theorem LoadExec_fail_eff (env : Env) (st : LoaderState) (eff : Effects)
    (r : ResultStatus) (eff2 : Effects) (img : Option CodeSetRec)
    (h : LoadExec env st eff = (r, eff2, img)) (hr : r ≠ ResultStatus.Success) :
    eff2 = eff ∧ img = none := by
  unfold LoadExec at h
  split at h
  · simp only [Prod.mk.injEq] at h
    exact ⟨h.2.1.symm, h.2.2.symm⟩
  · split at h
    · split at h
      · simp only [Prod.mk.injEq] at h
        exact ⟨h.2.1.symm, h.2.2.symm⟩
      · split at h
        · simp only [Prod.mk.injEq] at h
          exact ⟨h.2.1.symm, h.2.2.symm⟩
        · simp only [Prod.mk.injEq] at h
          exact absurd h.1.symm hr
    · simp only [Prod.mk.injEq] at h
      exact ⟨h.2.1.symm, h.2.2.symm⟩

/-- C1: a code section of length at least 16 whose final 16 bytes begin
with the ASCII tag `.CAA` (bytes size-16..size-13) followed by the
32-bit little-endian value 1 (bytes size-12..size-9) makes `LoadExec`
reject with the dedicated `ErrorGbaTitle` error, regardless of the
preceding content; and a buffer shorter than 16 bytes is never
classified as a GBA Virtual Console payload. -/
theorem C1_gba_trailer_rejection (env : Env) (st : LoaderState)
    (eff : Effects) (code : List Nat)
    (hload : st.is_loaded = true)
    (hrc : env.readCode st.overlay_ncch = (ResultStatus.Success, code))
    (hpid : env.readProgramId = ResultStatus.Success)
    (hlen : 16 ≤ code.length)
    (hb0 : code.getD (code.length - 16) 0 = 46)
    (hb1 : code.getD (code.length - 15) 0 = 67)
    (hb2 : code.getD (code.length - 14) 0 = 65)
    (hb3 : code.getD (code.length - 13) 0 = 65)
    (hb4 : code.getD (code.length - 12) 0 = 1)
    (hb5 : code.getD (code.length - 11) 0 = 0)
    (hb6 : code.getD (code.length - 10) 0 = 0)
    (hb7 : code.getD (code.length - 9) 0 = 0) :
    LoadExec env st eff = (ResultStatus.ErrorGbaTitle, eff, none) ∧
    ∀ c : List Nat, c.length < 16 → IsGbaVirtualConsole c = false := by
  have hg : IsGbaVirtualConsole code = true := by
    unfold IsGbaVirtualConsole
    simp only [Bool.and_eq_true, decide_eq_true_eq]
    refine ⟨⟨hlen, ?_⟩, ?_⟩
    · unfold read32LE MakeMagic
      have i1 : code.length - 0x10 + 1 = code.length - 15 := by omega
      have i2 : code.length - 0x10 + 2 = code.length - 14 := by omega
      have i3 : code.length - 0x10 + 3 = code.length - 13 := by omega
      rw [i1, i2, i3, hb0, hb1, hb2, hb3]
      decide
    · unfold read32LE
      have i1 : code.length - 0xC + 1 = code.length - 11 := by omega
      have i2 : code.length - 0xC + 2 = code.length - 10 := by omega
      have i3 : code.length - 0xC + 3 = code.length - 9 := by omega
      rw [i1, i2, i3, hb4, hb5, hb6, hb7]
      norm_num
  constructor
  · unfold LoadExec
    rw [hload, hrc, hpid]
    simp [hg]
  · intro c hc
    unfold IsGbaVirtualConsole
    have hn : ¬(0x10 ≤ c.length) := by omega
    simp [hn]

/-- C1 (witness): a concrete 16-byte buffer carrying the trailer is
rejected by `LoadExec` with `ErrorGbaTitle`. -/
theorem C1_witness :
    LoadExec
        ⟨ResultStatus.Success, ResultStatus.Error,
          fun _ => (ResultStatus.Success,
            [46, 67, 65, 65, 1, 0, 0, 0, 9, 9, 9, 9, 9, 9, 9, 9]),
          ResultStatus.Success, fun _ => ⟨⟨0, 0⟩, ⟨0, 0⟩, ⟨0, 0⟩, 0⟩,
          fun _ => ResultStatus.ErrorNotUsed, false⟩
        ⟨true, ContainerSel.base⟩ ⟨0, 0, 0⟩
      = (ResultStatus.ErrorGbaTitle, ⟨0, 0, 0⟩, none) ∧
    ∀ c : List Nat, c.length < 16 → IsGbaVirtualConsole c = false :=
  C1_gba_trailer_rejection _ _ _ _ rfl rfl rfl (by decide) (by decide)
    (by decide) (by decide) (by decide) (by decide) (by decide) (by decide)
    (by decide)

/-- C3: with a fresh loader (not loaded, overlay on base), `Load` aborts
immediately with the base container's reported error when the base load
fails, leaving state and effects untouched; when `Load` returns
`Success` the overlay points to the update container exactly when the
update load succeeded and to the base container otherwise; and an
update-load failure never makes `Load` fail — if the base load and the
subsequent executable build succeed, `Load` succeeds. -/
theorem C3_overlay_and_error_policy (env : Env) (st : LoaderState)
    (eff : Effects)
    (hstl : st.is_loaded = false) (hov : st.overlay_ncch = ContainerSel.base) :
    (env.baseLoad ≠ ResultStatus.Success →
      Load env st eff = (env.baseLoad, st, eff, none)) ∧
    (∀ r st2 eff2 img,
      Load env st eff = (r, st2, eff2, img) → r = ResultStatus.Success →
      st2.overlay_ncch
        = if env.updateLoad = ResultStatus.Success then ContainerSel.update
          else ContainerSel.base) ∧
    (env.updateLoad ≠ ResultStatus.Success →
      env.baseLoad = ResultStatus.Success →
      (LoadExec env (stAfter env st) (effAfter env eff)).1
        = ResultStatus.Success →
      (Load env st eff).1 = ResultStatus.Success) := by
  refine ⟨?_, ?_, ?_⟩
  · intro hb
    unfold Load
    rw [if_neg (by simp [hstl]), if_pos hb]
  · intro r st2 eff2 img heq hr
    by_cases hb : env.baseLoad = ResultStatus.Success
    · rcases hLE : LoadExec env (stAfter env st) (effAfter env eff)
        with ⟨r', e', i'⟩
      rw [Load_notLoaded_eval env st eff hstl hb r' e' i' hLE] at heq
      have hst2 : st2 = stAfter env st := by
        by_cases hr' : r' = ResultStatus.Success
        · rw [if_neg (fun hc => hc hr')] at heq
          simp only [Prod.mk.injEq] at heq
          exact heq.2.1.symm
        · rw [if_pos hr'] at heq
          simp only [Prod.mk.injEq] at heq
          exact heq.2.1.symm
      rw [hst2]
      simp only [stAfter]
      rw [hov]
    · unfold Load at heq
      rw [if_neg (by simp [hstl]), if_pos hb] at heq
      simp only [Prod.mk.injEq] at heq
      exact absurd (heq.1.trans hr) hb
  · intro hu hb hle
    rcases hLE : LoadExec env (stAfter env st) (effAfter env eff)
      with ⟨r', e', i'⟩
    rw [hLE] at hle
    simp only at hle
    rw [Load_notLoaded_eval env st eff hstl hb r' e' i' hLE,
      if_neg (fun hc => hc hle)]

/-- C3 (witness): concrete instances — a failing base load aborts with
its error; a successful update load leaves the overlay on the update
container; with a failing update load and a succeeding pipeline, `Load`
succeeds. -/
theorem C3_witness :
    Load ⟨ResultStatus.ErrorOther 3, ResultStatus.Success,
        fun _ => (ResultStatus.Success, []), ResultStatus.Success,
        fun _ => ⟨⟨0, 0⟩, ⟨0, 0⟩, ⟨0, 0⟩, 0⟩,
        fun _ => ResultStatus.ErrorNotUsed, false⟩
      ⟨false, ContainerSel.base⟩ ⟨0, 0, 0⟩
      = (ResultStatus.ErrorOther 3, ⟨false, ContainerSel.base⟩, ⟨0, 0, 0⟩,
          none) ∧
    (⟨true, ContainerSel.update⟩ : LoaderState).overlay_ncch
      = ContainerSel.update ∧
    (Load ⟨ResultStatus.Success, ResultStatus.Error,
        fun _ => (ResultStatus.Success, []), ResultStatus.Success,
        fun _ => ⟨⟨0, 0⟩, ⟨0, 0⟩, ⟨0, 0⟩, 0⟩,
        fun _ => ResultStatus.ErrorNotUsed, false⟩
      ⟨false, ContainerSel.base⟩ ⟨0, 0, 0⟩).1 = ResultStatus.Success :=
  ⟨(C3_overlay_and_error_policy _ ⟨false, ContainerSel.base⟩ ⟨0, 0, 0⟩
      rfl rfl).1 (by decide),
    (C3_overlay_and_error_policy
      ⟨ResultStatus.Success, ResultStatus.Success,
        fun _ => (ResultStatus.Success, []), ResultStatus.Success,
        fun _ => ⟨⟨0, 0⟩, ⟨0, 0⟩, ⟨0, 0⟩, 0⟩,
        fun _ => ResultStatus.ErrorNotUsed, false⟩
      ⟨false, ContainerSel.base⟩ ⟨0, 0, 0⟩ rfl rfl).2.1
      ResultStatus.Success ⟨true, ContainerSel.update⟩ ⟨1, 0, 1⟩
      (some (LoadExecLayout ⟨⟨0, 0⟩, ⟨0, 0⟩, ⟨0, 0⟩, 0⟩ [])) (by decide) rfl,
    (C3_overlay_and_error_policy _ ⟨false, ContainerSel.base⟩ ⟨0, 0, 0⟩
      rfl rfl).2.2 (by decide) rfl (by decide)⟩

/-- C4: `ReadUpdateRomFS` returns the update container's read when it
succeeds, and returns the base container's read result (whatever it is)
exactly when the update's read returns any non-success result. -/
theorem C4_romfs_fallback (u b : ResultStatus × Nat) :
    (u.1 = ResultStatus.Success →
      ReadUpdateRomFS u b = (ResultStatus.Success, u.2)) ∧
    (u.1 ≠ ResultStatus.Success → ReadUpdateRomFS u b = b) := by
  constructor
  · intro h
    unfold ReadUpdateRomFS
    rw [if_neg (fun hc => hc h)]
  · intro h
    unfold ReadUpdateRomFS
    rw [if_pos h]

/-- C4 (witness): a successful update read wins; a failed update read
falls back to the base read's result. -/
theorem C4_witness :
    ReadUpdateRomFS (ResultStatus.Success, 5) (ResultStatus.Error, 7)
      = (ResultStatus.Success, 5) ∧
    ReadUpdateRomFS (ResultStatus.Error, 5) (ResultStatus.Success, 7)
      = (ResultStatus.Success, 7) :=
  ⟨(C4_romfs_fallback _ _).1 rfl, (C4_romfs_fallback _ _).2 (by decide)⟩

/-- C5: a second `Load` on a loader whose first `Load` succeeded returns
`ErrorAlreadyLoaded` before any mutation or side effect — whatever the
collaborators would do on the second call, the returned state and effect
counters are exactly those passed in and no image is produced. -/
theorem C5_second_load_rejected (env env2 : Env) (st : LoaderState)
    (eff eff2 : Effects)
    (out : ResultStatus × LoaderState × Effects × Option CodeSetRec)
    (h : Load env st eff = out) (hs : out.1 = ResultStatus.Success) :
    Load env2 out.2.1 eff2
      = (ResultStatus.ErrorAlreadyLoaded, out.2.1, eff2, none) := by
  have hl : out.2.1.is_loaded = true := by
    cases hstl : st.is_loaded with
    | true =>
      unfold Load at h
      rw [if_pos hstl] at h
      rw [← h] at hs
      simp at hs
    | false =>
      by_cases hb : env.baseLoad = ResultStatus.Success
      · rcases hLE : LoadExec env (stAfter env st) (effAfter env eff)
          with ⟨r', e', i'⟩
        rw [Load_notLoaded_eval env st eff hstl hb r' e' i' hLE] at h
        by_cases hr' : r' = ResultStatus.Success
        · rw [if_neg (fun hc => hc hr')] at h
          rw [← h]
          rfl
        · rw [if_pos hr'] at h
          rw [← h] at hs
          exact absurd hs hr'
      · unfold Load at h
        rw [if_neg (by simp [hstl]), if_pos hb] at h
        rw [← h] at hs
        exact absurd hs hb
  unfold Load
  rw [if_pos hl]

/-- C5 (witness): after a concrete successful `Load`, a second call with
different collaborator outcomes and effect counters is rejected with
`ErrorAlreadyLoaded`, leaving them untouched. -/
theorem C5_witness :
    Load ⟨ResultStatus.Error, ResultStatus.Error,
        fun _ => (ResultStatus.Error, []), ResultStatus.Error,
        fun _ => ⟨⟨0, 0⟩, ⟨0, 0⟩, ⟨0, 0⟩, 0⟩,
        fun _ => ResultStatus.Error, true⟩
      ⟨true, ContainerSel.base⟩ ⟨9, 9, 9⟩
      = (ResultStatus.ErrorAlreadyLoaded, ⟨true, ContainerSel.base⟩,
          ⟨9, 9, 9⟩, none) :=
  C5_second_load_rejected
    ⟨ResultStatus.Success, ResultStatus.Error,
      fun _ => (ResultStatus.Success, []), ResultStatus.Success,
      fun _ => ⟨⟨0, 0⟩, ⟨0, 0⟩, ⟨0, 0⟩, 0⟩,
      fun _ => ResultStatus.ErrorNotUsed, false⟩
    ⟨ResultStatus.Error, ResultStatus.Error,
      fun _ => (ResultStatus.Error, []), ResultStatus.Error,
      fun _ => ⟨⟨0, 0⟩, ⟨0, 0⟩, ⟨0, 0⟩, 0⟩,
      fun _ => ResultStatus.Error, true⟩
    ⟨false, ContainerSel.base⟩ ⟨0, 0, 0⟩ ⟨9, 9, 9⟩
    (ResultStatus.Success, ⟨true, ContainerSel.base⟩, ⟨1, 0, 1⟩,
      some (LoadExecLayout ⟨⟨0, 0⟩, ⟨0, 0⟩, ⟨0, 0⟩, 0⟩ []))
    (by decide) rfl

/-- C6: when the region configuration is not in automatic mode the
operation makes no configuration call; in automatic mode with a readable
icon at least as large as the fixed layout it makes exactly one call
passing the regions `i ∈ 0..6` whose bit is set in the lockout mask, in
ascending order; with an unreadable or undersized icon it falls back to
the static system-title table, one single-region call on a hit and no
call on a miss; and mask `0b1000001 = 65` yields `[0, 6]`. -/
theorem C6_region_lockout (smdhSize : Nat) (iconResult : ResultStatus)
    (iconBuf : List Nat) (regionLockoutOf : List Nat → Nat)
    (systemTitleRegion : Option Nat) :
    ParseRegionLockoutInfo false smdhSize iconResult iconBuf regionLockoutOf
      systemTitleRegion = [] ∧
    (iconResult = ResultStatus.Success → smdhSize ≤ iconBuf.length →
      ParseRegionLockoutInfo true smdhSize iconResult iconBuf regionLockoutOf
        systemTitleRegion
        = [(List.range 7).filter
            (fun i => (regionLockoutOf iconBuf).testBit i)]) ∧
    (¬(iconResult = ResultStatus.Success ∧ smdhSize ≤ iconBuf.length) →
      ParseRegionLockoutInfo true smdhSize iconResult iconBuf regionLockoutOf
        systemTitleRegion
        = match systemTitleRegion with
          | some r => [[r]]
          | none => []) ∧
    lockoutRegions 65 = [0, 6] := by
  refine ⟨rfl, ?_, ?_, by decide⟩
  · intro h1 h2
    unfold ParseRegionLockoutInfo
    rw [if_neg (by simp), if_pos ⟨h1, h2⟩, lockoutRegions_eq]
  · intro h
    unfold ParseRegionLockoutInfo
    rw [if_neg (by simp), if_neg h]

/-- C6 (witness): a readable, large-enough icon with mask 65 yields the
single call `[[0, 6]]`; an unreadable icon with a table hit yields one
single-region call. -/
theorem C6_witness :
    ParseRegionLockoutInfo true 4 ResultStatus.Success [1, 2, 3, 4]
        (fun _ => 65) none
      = [(List.range 7).filter (fun i => (65 : Nat).testBit i)] ∧
    ParseRegionLockoutInfo true 9 ResultStatus.Error [] (fun _ => 65) (some 2)
      = [[2]] :=
  ⟨(C6_region_lockout 4 ResultStatus.Success [1, 2, 3, 4] (fun _ => 65)
      none).2.1 rfl (by decide),
    (C6_region_lockout 9 ResultStatus.Error [] (fun _ => 65)
      (some 2)).2.2.1 (by decide)⟩

/-- C7: `ReadTitle` fails with the format error whenever the icon buffer
is smaller than the fixed icon layout (in particular when absent, i.e.
empty), and otherwise returns the short title truncated at the first
null UTF-16 code unit, discarding everything after the null even inside
the fixed-length buffer — so a short-title buffer `AB\0XX` yields
`AB`. -/
theorem C7_title_truncation (smdhSize : Nat) (iconBuf : List Nat)
    (shortTitle : List Nat → List Nat) :
    (iconBuf.length < smdhSize →
      ReadTitle smdhSize iconBuf shortTitle
        = (ResultStatus.ErrorInvalidFormat, none)) ∧
    (smdhSize ≤ iconBuf.length →
      ∀ a b : List Nat, shortTitle iconBuf = a ++ 0 :: b →
        (∀ x ∈ a, x ≠ 0) →
        ReadTitle smdhSize iconBuf shortTitle
          = (ResultStatus.Success, some a)) ∧
    truncAtNull [65, 66, 0, 88, 88] = [65, 66] := by
  refine ⟨?_, ?_, by decide⟩
  · intro h
    have hf : IsValidSMDH smdhSize iconBuf = false := by
      unfold IsValidSMDH
      simp only [decide_eq_false_iff_not]
      omega
    unfold ReadTitle
    rw [hf]
    simp
  · intro h a b heq ha
    have ht : IsValidSMDH smdhSize iconBuf = true := by
      unfold IsValidSMDH
      simp [h]
    unfold ReadTitle
    rw [ht, if_neg (by simp), heq]
    unfold truncAtNull
    rw [takeWhile_prefix_eq _ a b 0 (fun y hy => by simpa using ha y hy)
      (by decide)]

/-- C7 (witness): a valid icon whose short title holds `AB\0XX` yields
title `AB`; an absent (empty) icon buffer yields the format error. -/
theorem C7_witness :
    ReadTitle 2 [7, 7, 7] (fun _ => [65, 66, 0, 88, 88])
      = (ResultStatus.Success, some [65, 66]) ∧
    ReadTitle 9 [] (fun _ => [])
      = (ResultStatus.ErrorInvalidFormat, none) :=
  ⟨(C7_title_truncation 2 [7, 7, 7] (fun _ => [65, 66, 0, 88, 88])).2.1
      (by decide) [65, 66] [88, 88] rfl (by decide),
    (C7_title_truncation 9 [] (fun _ => [])).1 (by decide)⟩

/-- C10: when the base load succeeds, `Load` records the telemetry
field, broadcasts when a network session is active, and sets the loaded
flag before running the executable build; so when the build fails (for
example with the GBA rejection) `Load` returns that error, yet the
telemetry increment, the broadcast increment and the loaded flag have
already happened, no process was created, and a further `Load` on the
resulting state returns `ErrorAlreadyLoaded` instead of retrying. -/
theorem C10_side_effects_precede_validation (env : Env) (st : LoaderState)
    (eff : Effects) (hstl : st.is_loaded = false)
    (hb : env.baseLoad = ResultStatus.Success)
    (r : ResultStatus) (eff2 : Effects) (img : Option CodeSetRec)
    (hle : LoadExec env (stAfter env st) (effAfter env eff) = (r, eff2, img))
    (hr : r ≠ ResultStatus.Success) :
    Load env st eff = (r, stAfter env st, eff2, none) ∧
    (stAfter env st).is_loaded = true ∧
    (effAfter env eff).telemetry = eff.telemetry + 1 ∧
    (env.networkActive = true →
      (effAfter env eff).broadcasts = eff.broadcasts + 1) ∧
    eff2 = effAfter env eff ∧
    eff2.processes = eff.processes ∧
    ∀ env2 eff3, Load env2 (stAfter env st) eff3
      = (ResultStatus.ErrorAlreadyLoaded, stAfter env st, eff3, none) := by
  have heff := LoadExec_fail_eff env (stAfter env st) (effAfter env eff)
    r eff2 img hle hr
  refine ⟨?_, rfl, rfl, ?_, heff.1, ?_, ?_⟩
  · rw [Load_notLoaded_eval env st eff hstl hb r eff2 img hle, if_pos hr]
  · intro hn
    simp [effAfter, hn]
  · rw [heff.1]
    rfl
  · intro env2 eff3
    unfold Load
    rw [if_pos (show (stAfter env st).is_loaded = true from rfl)]

/-- C10 (witness): a concrete load whose code section carries the GBA
trailer fails with `ErrorGbaTitle` after the telemetry record and the
loaded flag were already set. -/
theorem C10_witness :
    Load ⟨ResultStatus.Success, ResultStatus.Error,
        fun _ => (ResultStatus.Success,
          [46, 67, 65, 65, 1, 0, 0, 0, 9, 9, 9, 9, 9, 9, 9, 9]),
        ResultStatus.Success, fun _ => ⟨⟨0, 0⟩, ⟨0, 0⟩, ⟨0, 0⟩, 0⟩,
        fun _ => ResultStatus.ErrorNotUsed, false⟩
      ⟨false, ContainerSel.base⟩ ⟨0, 0, 0⟩
      = (ResultStatus.ErrorGbaTitle, ⟨true, ContainerSel.base⟩,
          ⟨1, 0, 0⟩, none) :=
  (C10_side_effects_precede_validation
    ⟨ResultStatus.Success, ResultStatus.Error,
      fun _ => (ResultStatus.Success,
        [46, 67, 65, 65, 1, 0, 0, 0, 9, 9, 9, 9, 9, 9, 9, 9]),
      ResultStatus.Success, fun _ => ⟨⟨0, 0⟩, ⟨0, 0⟩, ⟨0, 0⟩, 0⟩,
      fun _ => ResultStatus.ErrorNotUsed, false⟩
    ⟨false, ContainerSel.base⟩ ⟨0, 0, 0⟩ rfl rfl
    ResultStatus.ErrorGbaTitle ⟨1, 0, 0⟩ none (by decide) (by decide)).1

end Loader
